import Mathlib

/-!
# BlueZ network server (network/server.c)

A shallow embedding of the PAN server of `network/server.c`: the service
record built by `create_server_record`, the L2CAP listener `l2cap_listen`,
the directory publication `add_server_record` and the D-Bus method handlers
`enable`, `set_name`, `get_name`, `set_routing`, `set_security`.

Calls into the operating system, GLib and libdbus are recorded in a trace of
events; what those calls answer is an input of the model.
-/

namespace Network

/-! ## Constants named by the source and defined in headers outside it -/

/-- Constants of `bluetooth/bnep.h`, `bluetooth/l2cap.h`, `bluetooth/sdp.h` and
`bluetooth/bluetooth.h` that `server.c` names; their values are left open. -/
structure Consts where
  BNEP_PSM : Nat
  BNEP_MTU : Nat
  BNEP_SVC_NAP : Nat
  L2CAP_LM_SECURE : Int
  PUBLIC_BROWSE_GROUP : Nat
  L2CAP_UUID : Nat
  BNEP_UUID : Nat
  NAP_SVCLASS_ID : Nat
  NAP_PROFILE_ID : Nat
  GN_SVCLASS_ID : Nat
  GN_PROFILE_ID : Nat
  SDP_PRIMARY_LANG_BASE : Nat
  /-- `htobs`: host to Bluetooth byte order on a 16-bit value. -/
  htobs : Nat → Nat

/-- The attribute identifiers of `bluetooth/sdp.h` that the record of
`create_server_record` carries, by name. -/
inductive AttrId
  | SDP_ATTR_SVCLASS_ID_LIST
  | SDP_ATTR_PROTO_DESC_LIST
  | SDP_ATTR_BROWSE_GRP_LIST
  | SDP_ATTR_LANG_BASE_ATTR_ID_LIST
  | SDP_ATTR_PFILE_DESC_LIST
  | SDP_ATTR_SVCNAME_PRIMARY
  | SDP_ATTR_SVCDESC_PRIMARY
  | SDP_ATTR_PROVNAME_PRIMARY
  | SDP_ATTR_SECURITY_DESC
  | SDP_ATTR_NET_ACCESS_TYPE
  | SDP_ATTR_MAX_NET_ACCESSRATE
  deriving DecidableEq, Repr

/-- A `uint16_t` holding `n`. -/
def u16 (n : Nat) : Nat := n % 65536

/-- A `uint32_t` holding `n`. -/
def u32 (n : Nat) : Nat := n % 4294967296

/-! ## Service records -/

/-- The typed values of a service record (`sdp_data_t`): scalars of fixed
width, UUIDs, text, and sequences. `seq16` is a sequence allocated with the
explicit type `SDP_SEQ16`; `seq` is one built by a libsdp setter. -/
inductive sdp_data
  | uuid16 (v : Nat)
  | uint16 (v : Nat)
  | uint32 (v : Nat)
  | text (s : String)
  | seq16 (xs : List sdp_data)
  | seq (xs : List sdp_data)

mutual
/-- Equality of record values is decidable. -/
def sdp_data.decEq : (a b : sdp_data) → Decidable (a = b)
  | .uuid16 a, .uuid16 b => decidable_of_iff (a = b) (by simp)
  | .uint16 a, .uint16 b => decidable_of_iff (a = b) (by simp)
  | .uint32 a, .uint32 b => decidable_of_iff (a = b) (by simp)
  | .text a, .text b => decidable_of_iff (a = b) (by simp)
  | .seq16 a, .seq16 b => @decidable_of_iff _ (a = b) (by simp) (sdp_data.decEqList a b)
  | .seq a, .seq b => @decidable_of_iff _ (a = b) (by simp) (sdp_data.decEqList a b)
  | .uuid16 _, .uint16 _ => isFalse nofun
  | .uuid16 _, .uint32 _ => isFalse nofun
  | .uuid16 _, .text _ => isFalse nofun
  | .uuid16 _, .seq16 _ => isFalse nofun
  | .uuid16 _, .seq _ => isFalse nofun
  | .uint16 _, .uuid16 _ => isFalse nofun
  | .uint16 _, .uint32 _ => isFalse nofun
  | .uint16 _, .text _ => isFalse nofun
  | .uint16 _, .seq16 _ => isFalse nofun
  | .uint16 _, .seq _ => isFalse nofun
  | .uint32 _, .uuid16 _ => isFalse nofun
  | .uint32 _, .uint16 _ => isFalse nofun
  | .uint32 _, .text _ => isFalse nofun
  | .uint32 _, .seq16 _ => isFalse nofun
  | .uint32 _, .seq _ => isFalse nofun
  | .text _, .uuid16 _ => isFalse nofun
  | .text _, .uint16 _ => isFalse nofun
  | .text _, .uint32 _ => isFalse nofun
  | .text _, .seq16 _ => isFalse nofun
  | .text _, .seq _ => isFalse nofun
  | .seq16 _, .uuid16 _ => isFalse nofun
  | .seq16 _, .uint16 _ => isFalse nofun
  | .seq16 _, .uint32 _ => isFalse nofun
  | .seq16 _, .text _ => isFalse nofun
  | .seq16 _, .seq _ => isFalse nofun
  | .seq _, .uuid16 _ => isFalse nofun
  | .seq _, .uint16 _ => isFalse nofun
  | .seq _, .uint32 _ => isFalse nofun
  | .seq _, .text _ => isFalse nofun
  | .seq _, .seq16 _ => isFalse nofun
/-- Equality of lists of record values is decidable. -/
def sdp_data.decEqList : (a b : List sdp_data) → Decidable (a = b)
  | [], [] => isTrue rfl
  | [], _ :: _ => isFalse nofun
  | _ :: _, [] => isFalse nofun
  | a :: as, b :: bs =>
    @decidable_of_iff _ (a = b ∧ as = bs) (by simp)
      (@instDecidableAnd _ _ (sdp_data.decEq a b) (sdp_data.decEqList as bs))
end

instance : DecidableEq sdp_data := sdp_data.decEq

/-- The record under construction (`sdp_record_t`): its attribute list. -/
structure sdp_record where
  attrlist : List (AttrId × sdp_data)
  deriving DecidableEq

/-- A language block (`sdp_lang_attr_t`). -/
structure sdp_lang_attr where
  code_ISO639 : Nat
  encoding : Nat
  base_offset : Nat

/-- A profile descriptor (`sdp_profile_desc_t`). -/
structure sdp_profile_desc where
  uuid : Nat
  version : Nat

/-- The type tags `create_server_record` passes to `sdp_data_alloc` and
`sdp_attr_add_new`. -/
inductive Dtd
  | SDP_UINT16
  | SDP_UINT32
  deriving DecidableEq, Repr

/-- The value attached to an attribute identifier (`sdp_data_get`): the
first entry of the attribute list with that identifier. -/
def sdp_data_get (r : sdp_record) (a : AttrId) : Option sdp_data :=
  (r.attrlist.find? (fun e => decide (e.1 = a))).map Prod.snd

/-- Modelled from the spec: libsdp's `sdp_attr_add` is not among the sources;
a record is a set of typed attributes `{attribute-id → typed value}`, so an
attribute is attached under its identifier unless one is attached already. -/
def sdp_attr_add (r : sdp_record) (a : AttrId) (d : sdp_data) : sdp_record :=
  match sdp_data_get r a with
  | some _ => r
  | none => { attrlist := r.attrlist ++ [(a, d)] }

/-- Modelled from the spec: libsdp's `sdp_data_alloc` is not among the sources;
it makes a fixed-width unsigned integer of the given type from the value. -/
def sdp_data_alloc (dtd : Dtd) (value : Nat) : sdp_data :=
  match dtd with
  | .SDP_UINT16 => .uint16 (u16 value)
  | .SDP_UINT32 => .uint32 (u32 value)

/-- Modelled from the spec: libsdp's `sdp_attr_add_new` is not among the
sources; it attaches a new scalar attribute of the given type. -/
def sdp_attr_add_new (r : sdp_record) (a : AttrId) (dtd : Dtd) (value : Nat) : sdp_record :=
  sdp_attr_add r a (sdp_data_alloc dtd value)

/-- Modelled from the spec: libsdp's `sdp_seq_append` is not among the sources;
it puts a value at the end of a chain of values. -/
def sdp_seq_append (head : List sdp_data) (d : sdp_data) : List sdp_data :=
  head ++ [d]

/-- Modelled from the spec: libsdp's `sdp_set_browse_groups` is not among the
sources; it attaches the browse-group membership, a sequence of UUIDs. -/
def sdp_set_browse_groups (r : sdp_record) (seq : List Nat) : sdp_record :=
  sdp_attr_add r .SDP_ATTR_BROWSE_GRP_LIST (.seq (seq.map .uuid16))

/-- Modelled from the spec: libsdp's `sdp_set_service_classes` is not among the
sources; it attaches the service-class identifiers, a sequence of UUIDs. -/
def sdp_set_service_classes (r : sdp_record) (seq : List Nat) : sdp_record :=
  sdp_attr_add r .SDP_ATTR_SVCLASS_ID_LIST (.seq (seq.map .uuid16))

/-- Modelled from the spec: libsdp's `sdp_set_access_protos` is not among the
sources; it attaches the access-protocol attribute: a sequence of allowed
protocol stacks, each a sequence of layers, each a sequence of the layer's
protocol identifier and parameters, all in the order of the lists given. -/
def sdp_set_access_protos (r : sdp_record) (ap : List (List (List sdp_data))) : sdp_record :=
  sdp_attr_add r .SDP_ATTR_PROTO_DESC_LIST
    (.seq (ap.map (fun stack => .seq (stack.map (fun layer => .seq layer)))))

/-- Modelled from the spec: libsdp's `sdp_set_lang_attr` is not among the
sources; it attaches the language metadata, a flat sequence of three 16-bit
values per language block. -/
def sdp_set_lang_attr (r : sdp_record) (seq : List sdp_lang_attr) : sdp_record :=
  sdp_attr_add r .SDP_ATTR_LANG_BASE_ATTR_ID_LIST
    (.seq (seq.flatMap (fun l =>
      [.uint16 (u16 l.code_ISO639), .uint16 (u16 l.encoding), .uint16 (u16 l.base_offset)])))

/-- Modelled from the spec: libsdp's `sdp_set_profile_descs` is not among the
sources; it attaches the profile descriptors, each an identifier and a
version. -/
def sdp_set_profile_descs (r : sdp_record) (seq : List sdp_profile_desc) : sdp_record :=
  sdp_attr_add r .SDP_ATTR_PFILE_DESC_LIST
    (.seq (seq.map (fun p => .seq [.uuid16 p.uuid, .uint16 (u16 p.version)])))

/-- Modelled from the spec: libsdp's `sdp_set_info_attr` is not among the
sources; it attaches the three texts (name, provider, description). -/
def sdp_set_info_attr (r : sdp_record) (name prov desc : String) : sdp_record :=
  sdp_attr_add (sdp_attr_add (sdp_attr_add r
    .SDP_ATTR_SVCNAME_PRIMARY (.text name))
    .SDP_ATTR_PROVNAME_PRIMARY (.text prov))
    .SDP_ATTR_SVCDESC_PRIMARY (.text desc)

/-- The source's `add_lang_attr`: one language block, English, UTF-8. -/
def add_lang_attr (c : Consts) (r : sdp_record) : sdp_record :=
  let base_lang : sdp_lang_attr :=
    { code_ISO639 := (0x65 <<< 8) ||| 0x6e
      encoding := 106
      base_offset := c.SDP_PRIMARY_LANG_BASE }
  let langs := [base_lang]
  sdp_set_lang_attr r langs

/-- The loop of `create_server_record` over `ptype`: the first value becomes
the head of the chain, each later one is appended to it. -/
def ptype_chain (ptype : List Nat) : Option (List sdp_data) :=
  ptype.foldl
    (fun head x =>
      let data := sdp_data_alloc .SDP_UINT16 x
      match head with
      | some h => some (sdp_seq_append h data)
      | none => some [data])
    none

/-- What `create_server_record` yields: `record` is the record it passes to
`sdp_gen_record_pdu`, `buf` the buffer that call filled, `ret` the result. -/
structure RecordResult where
  record : sdp_record
  buf : Option (List Nat)
  ret : Int

/-- The source's `create_server_record`. The serializer `sdp_gen_record_pdu`
belongs to libsdp and is given as `gen`; `none` is its failure (a negative
result). -/
def create_server_record (c : Consts) (gen : sdp_record → Option (List Nat)) (id : Nat) :
    RecordResult :=
  let psm := u16 c.BNEP_PSM
  let version := 0x0100
  let security_desc := 0
  let net_access_type := 0xfffe
  let max_net_access_rate := 0
  let name := "BlueZ PAN"
  let desc := "BlueZ PAN Service"
  let record : sdp_record := { attrlist := [] }
  let root := [c.PUBLIC_BROWSE_GROUP]
  let record := sdp_set_browse_groups record root
  let proto0 := [sdp_data.uuid16 c.L2CAP_UUID]
  let p := sdp_data_alloc .SDP_UINT16 psm
  let proto0 := proto0 ++ [p]
  let apseq := [proto0]
  let proto1 := [sdp_data.uuid16 c.BNEP_UUID]
  let v := sdp_data_alloc .SDP_UINT16 version
  let proto1 := proto1 ++ [v]
  let ptype := [0x0800, 0x0806]
  let head := ptype_chain ptype
  -- pseq = sdp_data_alloc(SDP_SEQ16, head)
  let pseq := sdp_data.seq16 (head.getD [])
  let proto1 := proto1 ++ [pseq]
  let apseq := apseq ++ [proto1]
  let aproto := [apseq]
  let record := sdp_set_access_protos record aproto
  let record := add_lang_attr c record
  let record := sdp_attr_add_new record .SDP_ATTR_SECURITY_DESC .SDP_UINT16 security_desc
  let record :=
    if id = c.BNEP_SVC_NAP then
      let svclass := [c.NAP_SVCLASS_ID]
      let record := sdp_set_service_classes record svclass
      let pfseq := [({ uuid := c.NAP_PROFILE_ID, version := 0x0100 } : sdp_profile_desc)]
      let record := sdp_set_profile_descs record pfseq
      let record := sdp_set_info_attr record "Network Access Point" name desc
      let record := sdp_attr_add_new record .SDP_ATTR_NET_ACCESS_TYPE .SDP_UINT16 net_access_type
      sdp_attr_add_new record .SDP_ATTR_MAX_NET_ACCESSRATE .SDP_UINT32 max_net_access_rate
    else
      let svclass := [c.GN_SVCLASS_ID]
      let record := sdp_set_service_classes record svclass
      let pfseq := [({ uuid := c.GN_PROFILE_ID, version := 0x0100 } : sdp_profile_desc)]
      let record := sdp_set_profile_descs record pfseq
      sdp_set_info_attr record "Group Network Service" name desc
  let buf := gen record
  let ret : Int := if buf.isNone then -1 else 0
  { record := record, buf := buf, ret := ret }

/-! ## The server and its environment -/

/-- The source's `struct network_server`. Pointers that may be `NULL` are
options; a string is a C string, its terminating NUL left out. -/
structure network_server where
  iface : Option String
  name : Option String
  path : Option String
  secure : Bool
  record_id : Nat
  id : Nat
  io : Option Int
  deriving DecidableEq, Repr

/-- The fields of `struct l2cap_options` (`bluetooth/l2cap.h`): the two MTUs
the source writes, and the remaining fields, which it never names. -/
structure l2cap_options where
  omtu : Nat
  imtu : Nat
  others : List Nat
  deriving DecidableEq, Repr

/-- Device addresses: the wildcard `BDADDR_ANY`, or a given one. -/
inductive bdaddr
  | BDADDR_ANY
  | addr (b : List Nat)
  deriving DecidableEq, Repr

/-- An argument carried by a D-Bus message. -/
inductive DBusArg
  | string (s : String)
  | boolean (b : Bool)
  | uint32 (n : Nat)
  | bytes (data : List Nat)
  deriving DecidableEq, Repr

/-- A D-Bus message, as the arguments it carries. -/
abbrev DBusMessage := List DBusArg

/-- The text handed to `err_failed` or `err_invalid_args`. -/
inductive ErrText
  | lit (s : String)
  | strerror (e : Int)
  | derr_message
  deriving DecidableEq, Repr

/-- The calls `server.c` makes into the system, GLib, libsdp and the D-Bus
helpers, with their arguments, in the order made. Calls that only log
(`error`, `info`, `debug`) and calls that only free memory are left out. -/
inductive Event
  /-- `socket(AF_BLUETOOTH, SOCK_SEQPACKET, BTPROTO_L2CAP)`. -/
  | socket
  /-- `bind(sk, &l2a, sizeof(l2a))` with the address and PSM put in `l2a`. -/
  | bind (sk : Int) (l2_bdaddr : bdaddr) (l2_psm : Nat)
  /-- `getsockopt(sk, SOL_L2CAP, L2CAP_OPTIONS, &l2o, &olen)`. -/
  | getsockopt_L2CAP_OPTIONS (sk : Int)
  /-- `setsockopt(sk, SOL_L2CAP, L2CAP_OPTIONS, &l2o, sizeof(l2o))`. -/
  | setsockopt_L2CAP_OPTIONS (sk : Int) (l2o : l2cap_options)
  /-- `setsockopt(sk, SOL_L2CAP, L2CAP_LM, &lm, sizeof(lm))`. -/
  | setsockopt_L2CAP_LM (sk : Int) (lm : Int)
  /-- `listen(sk, backlog)`. -/
  | listen (sk : Int) (backlog : Int)
  /-- `close(sk)`. -/
  | close (sk : Int)
  /-- `g_io_channel_unix_new(sk)`. -/
  | g_io_channel_unix_new (sk : Int)
  /-- `g_io_channel_set_close_on_unref(io, flag)`, `io` the channel of `sk`. -/
  | g_io_channel_set_close_on_unref (sk : Int) (flag : Bool)
  /-- `g_io_add_watch(io, G_IO_IN, connect_event, NULL)`, `io` the channel of `sk`. -/
  | g_io_add_watch (sk : Int)
  /-- `sdp_gen_record_pdu(&record, buf)`. -/
  | sdp_gen_record_pdu (record : sdp_record)
  /-- `dbus_connection_send_with_reply_and_block` of the method call
  `org.bluez.Database.AddServiceRecord` carrying the byte array `data`. -/
  | AddServiceRecord (data : List Nat)
  /-- `err_failed(conn, msg, text)`. -/
  | err_failed (text : ErrText)
  /-- `err_invalid_args(conn, msg, text)`. -/
  | err_invalid_args (text : ErrText)
  /-- `send_message_and_unref(conn, reply)`, `reply` carrying `args`. -/
  | send_message_and_unref (args : DBusMessage)
  deriving DecidableEq

/-- What one system call answers: the value it returns and the value of
`errno` once it has returned. -/
structure SysRet where
  ret : Int
  errno : Int
  deriving DecidableEq, Repr

/-- What the system answers to the calls of `l2cap_listen`; `l2o` is what
`getsockopt` stores in the caller's `struct l2cap_options`. -/
structure Sys where
  socket : SysRet
  bind : SysRet
  getsockopt : SysRet
  l2o : l2cap_options
  setsockopt_options : SysRet
  setsockopt_lm : SysRet
  listen : SysRet
  close : SysRet
  deriving DecidableEq, Repr

/-- What `l2cap_listen` leaves: the server, `errno`, its result, its calls. -/
structure ListenResult where
  ns : network_server
  errno : Int
  ret : Int
  trace : List Event

/-- The source's `fail:` label in `l2cap_listen`: `close(sk)`, which leaves its
own value in `errno`; then `errno = err` puts the saved error code back and
the result is its negation. -/
def l2cap_listen_fail (sys : Sys) (ns : network_server) (sk err : Int) (trace : List Event) :
    ListenResult :=
  let closed : ListenResult :=
    { ns := ns, errno := sys.close.errno, ret := sys.close.ret, trace := trace ++ [.close sk] }
  { closed with errno := err, ret := -err }

/-- The source's `l2cap_listen`. -/
def l2cap_listen (c : Consts) (sys : Sys) (ns : network_server) : ListenResult :=
  let sk := sys.socket.ret
  let trace := [Event.socket]
  if sk < 0 then
    let err := sys.socket.errno
    { ns := ns, errno := sys.socket.errno, ret := -err, trace := trace }
  else
    let trace := trace ++ [.bind sk .BDADDR_ANY (c.htobs c.BNEP_PSM)]
    if sys.bind.ret ≠ 0 then
      l2cap_listen_fail sys ns sk sys.bind.errno trace
    else
      let trace := trace ++ [.getsockopt_L2CAP_OPTIONS sk]
      if sys.getsockopt.ret < 0 then
        l2cap_listen_fail sys ns sk sys.getsockopt.errno trace
      else
        let l2o := sys.l2o
        let l2o := { l2o with omtu := u16 c.BNEP_MTU, imtu := u16 c.BNEP_MTU }
        let trace := trace ++ [.setsockopt_L2CAP_OPTIONS sk l2o]
        if sys.setsockopt_options.ret < 0 then
          l2cap_listen_fail sys ns sk sys.setsockopt_options.errno trace
        else
          let lm : Int := if ns.secure then c.L2CAP_LM_SECURE else 0
          let trace := if lm ≠ 0 then trace ++ [.setsockopt_L2CAP_LM sk lm] else trace
          if lm ≠ 0 ∧ sys.setsockopt_lm.ret < 0 then
            l2cap_listen_fail sys ns sk sys.setsockopt_lm.errno trace
          else
            let trace := trace ++ [.listen sk 10]
            if sys.listen.ret < 0 then
              l2cap_listen_fail sys ns sk sys.listen.errno trace
            else
              let ns := { ns with io := some sk }
              let trace := trace ++ [.g_io_channel_unix_new sk,
                .g_io_channel_set_close_on_unref sk true, .g_io_add_watch sk]
              { ns := ns
                errno := sys.listen.errno
                ret := 0
                trace := trace }

/-! ## Publication and the method handlers -/

/-- What `dbus_connection_send_with_reply_and_block` answers: the error set
(`derr`), a reply that is an error message, or a method return. -/
inductive SendReply
  | derr
  | error_reply
  | method_return (args : DBusMessage)
  deriving DecidableEq, Repr

/-- What libsdp and the D-Bus connection answer to `add_server_record`:
whether `dbus_message_new_method_call` gives a message, what
`sdp_gen_record_pdu` makes of a record (`none`: a negative result), and what
the directory answers to the bytes sent. -/
structure DBus where
  msg : Bool
  gen : sdp_record → Option (List Nat)
  send : List Nat → SendReply

/-- Modelled from the spec: libdbus's `dbus_message_get_args` is not among the
sources; asked for one string, it gives the message's first argument when
that is a string and fails on a type mismatch or a missing argument. -/
def dbus_message_get_args_string (msg : DBusMessage) : Option String :=
  match msg with
  | .string s :: _ => some s
  | _ => none

/-- Modelled from the spec: `dbus_message_get_args` asked for one boolean. -/
def dbus_message_get_args_boolean (msg : DBusMessage) : Option Bool :=
  match msg with
  | .boolean b :: _ => some b
  | _ => none

/-- Modelled from the spec: `dbus_message_get_args` asked for one `uint32`. -/
def dbus_message_get_args_uint32 (msg : DBusMessage) : Option Nat :=
  match msg with
  | .uint32 n :: _ => some (u32 n)
  | _ => none

/-- What `add_server_record` leaves: the record handle it returns (zero on
every failure) and its calls. -/
structure PublishResult where
  rec_id : Nat
  trace : List Event

/-- The source's `add_server_record`. -/
def add_server_record (c : Consts) (d : DBus) (id : Nat) : PublishResult :=
  if d.msg = false then
    { rec_id := 0, trace := [] }
  else
    let r := create_server_record c d.gen id
    let trace := [Event.sdp_gen_record_pdu r.record]
    if r.ret < 0 then
      { rec_id := 0, trace := trace }
    else
      let data := r.buf.getD []
      let trace := trace ++ [.AddServiceRecord data]
      match d.send data with
      | .derr => { rec_id := 0, trace := trace }
      | .error_reply => { rec_id := 0, trace := trace }
      | .method_return reply =>
        match dbus_message_get_args_uint32 reply with
        | none => { rec_id := 0, trace := trace }
        | some rec_id => { rec_id := rec_id, trace := trace }

/-- What a method handler returns: one of the three `DBusHandlerResult`
values the source names, or whatever the helper it ends with returned. -/
inductive HandlerRet
  | DBUS_HANDLER_RESULT_HANDLED
  | DBUS_HANDLER_RESULT_NOT_YET_HANDLED
  | DBUS_HANDLER_RESULT_NEED_MEMORY
  | of_err_failed
  | of_err_invalid_args
  | of_send_message_and_unref
  deriving DecidableEq, Repr

/-- What a method handler leaves: the server, its result, its calls. -/
structure HandlerResult where
  ns : network_server
  ret : HandlerRet
  trace : List Event

/-- The source's `enable`. `reply` tells whether
`dbus_message_new_method_return` gave a message. -/
def enable (c : Consts) (d : DBus) (sys : Sys) (ns : network_server) (reply : Bool) :
    HandlerResult :=
  if reply = false then
    { ns := ns, ret := .DBUS_HANDLER_RESULT_NEED_MEMORY, trace := [] }
  else
    let p := add_server_record c d ns.id
    let ns := { ns with record_id := p.rec_id }
    if ns.record_id = 0 then
      { ns := ns, ret := .of_err_failed
        trace := p.trace ++ [.err_failed (.lit "Unable to register the service record")] }
    else
      let l := l2cap_listen c sys ns
      let err := l.ret
      if err < 0 then
        { ns := l.ns, ret := .of_err_failed
          trace := p.trace ++ l.trace ++ [.err_failed (.strerror (-err))] }
      else
        { ns := l.ns, ret := .of_send_message_and_unref
          trace := p.trace ++ l.trace ++ [.send_message_and_unref []] }

/-- The source's `set_name`. -/
def set_name (ns : network_server) (reply : Bool) (msg : DBusMessage) : HandlerResult :=
  if reply = false then
    { ns := ns, ret := .DBUS_HANDLER_RESULT_NEED_MEMORY, trace := [] }
  else
    match dbus_message_get_args_string msg with
    | none =>
      { ns := ns, ret := .DBUS_HANDLER_RESULT_HANDLED
        trace := [.err_invalid_args .derr_message] }
    | some name =>
      if name.length = 0 then
        { ns := ns, ret := .of_err_invalid_args
          trace := [.err_invalid_args (.lit "Invalid name")] }
      else
        let ns := { ns with name := some name }
        { ns := ns, ret := .of_send_message_and_unref
          trace := [.send_message_and_unref []] }

/-- The source's `get_name`. -/
def get_name (ns : network_server) (reply : Bool) : HandlerResult :=
  let name := ""
  let pname := match ns.name with
    | some n => n
    | none => name
  if reply = false then
    { ns := ns, ret := .DBUS_HANDLER_RESULT_NEED_MEMORY, trace := [] }
  else
    { ns := ns, ret := .of_send_message_and_unref
      trace := [.send_message_and_unref [.string pname]] }

/-- The source's `set_routing`. -/
def set_routing (ns : network_server) (reply : Bool) (msg : DBusMessage) : HandlerResult :=
  if reply = false then
    { ns := ns, ret := .DBUS_HANDLER_RESULT_NEED_MEMORY, trace := [] }
  else
    match dbus_message_get_args_string msg with
    | none =>
      { ns := ns, ret := .DBUS_HANDLER_RESULT_HANDLED
        trace := [.err_invalid_args .derr_message] }
    | some iface =>
      if iface.length = 0 then
        { ns := ns, ret := .of_err_invalid_args
          trace := [.err_invalid_args (.lit "Invalid interface")] }
      else
        let ns := { ns with iface := some iface }
        { ns := ns, ret := .of_send_message_and_unref
          trace := [.send_message_and_unref []] }

/-- The source's `set_security`. -/
def set_security (ns : network_server) (reply : Bool) (msg : DBusMessage) : HandlerResult :=
  if reply = false then
    { ns := ns, ret := .DBUS_HANDLER_RESULT_NEED_MEMORY, trace := [] }
  else
    match dbus_message_get_args_boolean msg with
    | none =>
      { ns := ns, ret := .DBUS_HANDLER_RESULT_HANDLED
        trace := [.err_invalid_args .derr_message] }
    | some secure =>
      let ns := { ns with secure := secure }
      { ns := ns, ret := .of_send_message_and_unref
        trace := [.send_message_and_unref []] }

/-- The source's `get_security`. -/
def get_security (ns : network_server) (reply : Bool) : HandlerResult :=
  if reply = false then
    { ns := ns, ret := .DBUS_HANDLER_RESULT_NEED_MEMORY, trace := [] }
  else
    { ns := ns, ret := .of_send_message_and_unref
      trace := [.send_message_and_unref [.boolean ns.secure]] }

/-! ## Observations on traces, and concrete inputs -/

/-- The sockets closed in a trace, one entry per `close`. -/
def closes (t : List Event) : List Int :=
  t.filterMap (fun e => match e with
    | .close sk => some sk
    | _ => none)

/-- The sockets put under a readability watch in a trace. -/
def watches (t : List Event) : List Int :=
  t.filterMap (fun e => match e with
    | .g_io_add_watch sk => some sk
    | _ => none)

/-- The link modes written in a trace, one entry per write. -/
def lm_writes (t : List Event) : List Int :=
  t.filterMap (fun e => match e with
    | .setsockopt_L2CAP_LM _ lm => some lm
    | _ => none)

/-- The calls of `l2cap_listen` up to the write of the channel options. -/
def calls_to_options (c : Consts) (sys : Sys) : List Event :=
  [.socket,
   .bind sys.socket.ret .BDADDR_ANY (c.htobs c.BNEP_PSM),
   .getsockopt_L2CAP_OPTIONS sys.socket.ret,
   .setsockopt_L2CAP_OPTIONS sys.socket.ret
      { sys.l2o with omtu := u16 c.BNEP_MTU, imtu := u16 c.BNEP_MTU }]

/-- The system keeps the convention of `errno`: a call the source takes as
failed has left a positive error code. -/
def Sys.posix (sys : Sys) : Prop :=
  (sys.socket.ret < 0 → 0 < sys.socket.errno) ∧
  (sys.bind.ret ≠ 0 → 0 < sys.bind.errno) ∧
  (sys.getsockopt.ret < 0 → 0 < sys.getsockopt.errno) ∧
  (sys.setsockopt_options.ret < 0 → 0 < sys.setsockopt_options.errno) ∧
  (sys.setsockopt_lm.ret < 0 → 0 < sys.setsockopt_lm.errno) ∧
  (sys.listen.ret < 0 → 0 < sys.listen.errno)

instance (sys : Sys) : Decidable sys.posix := by
  unfold Sys.posix
  infer_instance

/-- A system in which every call succeeds; the socket is descriptor 5 and the
options read back are MTUs 672/672 and two further fields. -/
def sys_ok : Sys where
  socket := { ret := 5, errno := 0 }
  bind := { ret := 0, errno := 0 }
  getsockopt := { ret := 0, errno := 0 }
  l2o := { omtu := 672, imtu := 672, others := [65535, 0] }
  setsockopt_options := { ret := 0, errno := 0 }
  setsockopt_lm := { ret := 0, errno := 0 }
  listen := { ret := 0, errno := 0 }
  close := { ret := 0, errno := 0 }

/-- A server as `server_register` leaves it, for the Group-Network id. -/
def ns_new : network_server where
  iface := none
  name := none
  path := some "/org/bluez/network/gn"
  secure := false
  record_id := 0
  id := 0x1117
  io := none

/-- A system in which the write of the channel options fails with error 22;
every other call succeeds. -/
def sys_setopt_fails : Sys :=
  { sys_ok with setsockopt_options := { ret := -1, errno := 22 } }

/-- The calls that build and submit the record: the serializer and the
directory call. -/
def publish_events (t : List Event) : List Event :=
  t.filter (fun e => match e with
    | .sdp_gen_record_pdu _ => true
    | .AddServiceRecord _ => true
    | _ => false)

/-- A directory that accepts the record and answers the handle 0x10007. -/
def dbus_ok : DBus where
  msg := true
  gen := fun r => some [r.attrlist.length]
  send := fun _ => .method_return [.uint32 0x10007]

/-- A directory that answers the call with an error. -/
def dbus_error : DBus :=
  { dbus_ok with send := fun _ => .error_reply }

/-- A system in which `socket` fails with error 97. -/
def sys_socket_fails : Sys :=
  { sys_ok with socket := { ret := -1, errno := 97 } }

/-- The values the BlueZ headers give the constants; used in the concrete
runs only. -/
def bluez : Consts where
  BNEP_PSM := 0x0f
  BNEP_MTU := 1691
  BNEP_SVC_NAP := 0x1116
  L2CAP_LM_SECURE := 0x0020
  PUBLIC_BROWSE_GROUP := 0x1002
  L2CAP_UUID := 0x0100
  BNEP_UUID := 0x000f
  NAP_SVCLASS_ID := 0x1116
  NAP_PROFILE_ID := 0x1116
  GN_SVCLASS_ID := 0x1117
  GN_PROFILE_ID := 0x1117
  SDP_PRIMARY_LANG_BASE := 0x0100
  htobs := fun n => n

/-! ## The service record -/

/-- The record `create_server_record` builds, attribute by attribute. -/
theorem create_server_record_attrlist (c : Consts) (gen : sdp_record → Option (List Nat))
    (id : Nat) :
    (create_server_record c gen id).record.attrlist =
      [(.SDP_ATTR_BROWSE_GRP_LIST, .seq [.uuid16 c.PUBLIC_BROWSE_GROUP]),
       (.SDP_ATTR_PROTO_DESC_LIST,
          .seq [.seq [.seq [.uuid16 c.L2CAP_UUID, .uint16 (u16 c.BNEP_PSM)],
                      .seq [.uuid16 c.BNEP_UUID, .uint16 0x0100,
                            .seq16 [.uint16 0x0800, .uint16 0x0806]]]]),
       (.SDP_ATTR_LANG_BASE_ATTR_ID_LIST,
          .seq [.uint16 0x656e, .uint16 106, .uint16 (u16 c.SDP_PRIMARY_LANG_BASE)]),
       (.SDP_ATTR_SECURITY_DESC, .uint16 0)] ++
      (if id = c.BNEP_SVC_NAP then
        [(.SDP_ATTR_SVCLASS_ID_LIST, .seq [.uuid16 c.NAP_SVCLASS_ID]),
         (.SDP_ATTR_PFILE_DESC_LIST, .seq [.seq [.uuid16 c.NAP_PROFILE_ID, .uint16 0x0100]]),
         (.SDP_ATTR_SVCNAME_PRIMARY, .text "Network Access Point"),
         (.SDP_ATTR_PROVNAME_PRIMARY, .text "BlueZ PAN"),
         (.SDP_ATTR_SVCDESC_PRIMARY, .text "BlueZ PAN Service"),
         (.SDP_ATTR_NET_ACCESS_TYPE, .uint16 0xfffe),
         (.SDP_ATTR_MAX_NET_ACCESSRATE, .uint32 0)]
      else
        [(.SDP_ATTR_SVCLASS_ID_LIST, .seq [.uuid16 c.GN_SVCLASS_ID]),
         (.SDP_ATTR_PFILE_DESC_LIST, .seq [.seq [.uuid16 c.GN_PROFILE_ID, .uint16 0x0100]]),
         (.SDP_ATTR_SVCNAME_PRIMARY, .text "Group Network Service"),
         (.SDP_ATTR_PROVNAME_PRIMARY, .text "BlueZ PAN"),
         (.SDP_ATTR_SVCDESC_PRIMARY, .text "BlueZ PAN Service")]) := by
  by_cases h : id = c.BNEP_SVC_NAP
  · simp [create_server_record, h, sdp_set_browse_groups, sdp_set_access_protos,
        add_lang_attr, sdp_set_lang_attr, sdp_attr_add_new, sdp_set_service_classes,
        sdp_set_profile_descs, sdp_set_info_attr, sdp_attr_add, sdp_data_get, sdp_data_alloc,
        ptype_chain, sdp_seq_append, u16, u32]
  · simp [create_server_record, h, sdp_set_browse_groups, sdp_set_access_protos,
        add_lang_attr, sdp_set_lang_attr, sdp_attr_add_new, sdp_set_service_classes,
        sdp_set_profile_descs, sdp_set_info_attr, sdp_attr_add, sdp_data_get, sdp_data_alloc,
        ptype_chain, sdp_seq_append, u16, u32]

/-- C1: for every service id, the record `create_server_record` hands to the
serializer carries the browse-group attribute (the public browse root), the
access-protocol descriptor list and the primary-language attribute; it carries
the network-access-type attribute, and the max-access-rate attribute, exactly
when the id is `BNEP_SVC_NAP`; every other id gets the Group-Network service
class, profile descriptor and name, and its attributes are the nine listed,
neither of the two among them. -/
theorem create_server_record_attributes (c : Consts) (gen : sdp_record → Option (List Nat))
    (id : Nat) :
    (create_server_record c gen id).buf = gen (create_server_record c gen id).record ∧
    sdp_data_get (create_server_record c gen id).record .SDP_ATTR_BROWSE_GRP_LIST =
      some (.seq [.uuid16 c.PUBLIC_BROWSE_GROUP]) ∧
    (sdp_data_get (create_server_record c gen id).record .SDP_ATTR_PROTO_DESC_LIST).isSome
      = true ∧
    sdp_data_get (create_server_record c gen id).record .SDP_ATTR_LANG_BASE_ATTR_ID_LIST =
      some (.seq [.uint16 0x656e, .uint16 106, .uint16 (u16 c.SDP_PRIMARY_LANG_BASE)]) ∧
    ((sdp_data_get (create_server_record c gen id).record .SDP_ATTR_NET_ACCESS_TYPE).isSome
      = true ↔ id = c.BNEP_SVC_NAP) ∧
    ((sdp_data_get (create_server_record c gen id).record .SDP_ATTR_MAX_NET_ACCESSRATE).isSome
      = true ↔ id = c.BNEP_SVC_NAP) ∧
    sdp_data_get (create_server_record c gen id).record .SDP_ATTR_SVCLASS_ID_LIST =
      some (.seq [.uuid16 (if id = c.BNEP_SVC_NAP then c.NAP_SVCLASS_ID else c.GN_SVCLASS_ID)]) ∧
    sdp_data_get (create_server_record c gen id).record .SDP_ATTR_PFILE_DESC_LIST =
      some (.seq [.seq [.uuid16
        (if id = c.BNEP_SVC_NAP then c.NAP_PROFILE_ID else c.GN_PROFILE_ID), .uint16 0x0100]]) ∧
    sdp_data_get (create_server_record c gen id).record .SDP_ATTR_SVCNAME_PRIMARY =
      some (.text
        (if id = c.BNEP_SVC_NAP then "Network Access Point" else "Group Network Service")) ∧
    (create_server_record c gen id).record.attrlist.map Prod.fst =
      [.SDP_ATTR_BROWSE_GRP_LIST, .SDP_ATTR_PROTO_DESC_LIST, .SDP_ATTR_LANG_BASE_ATTR_ID_LIST,
       .SDP_ATTR_SECURITY_DESC, .SDP_ATTR_SVCLASS_ID_LIST, .SDP_ATTR_PFILE_DESC_LIST,
       .SDP_ATTR_SVCNAME_PRIMARY, .SDP_ATTR_PROVNAME_PRIMARY, .SDP_ATTR_SVCDESC_PRIMARY] ++
      (if id = c.BNEP_SVC_NAP then [.SDP_ATTR_NET_ACCESS_TYPE, .SDP_ATTR_MAX_NET_ACCESSRATE]
       else []) := by
  refine ⟨rfl, ?_⟩
  by_cases h : id = c.BNEP_SVC_NAP <;>
    simp [sdp_data_get, create_server_record_attrlist, h]

/-- C2: for every service id, the access-protocol attribute of the record is a
sequence holding exactly one protocol stack, and that stack is the two layers,
in this order, `[L2CAP uuid, uint16 BNEP_PSM]` (the constant as the `uint16_t`
variable `psm` holds it) and `[BNEP uuid, uint16 0x0100, sequence of uint16
[0x0800, 0x0806]]`. -/
theorem create_server_record_access_protos (c : Consts)
    (gen : sdp_record → Option (List Nat)) (id : Nat) :
    sdp_data_get (create_server_record c gen id).record .SDP_ATTR_PROTO_DESC_LIST =
      some (.seq [.seq [.seq [.uuid16 c.L2CAP_UUID, .uint16 (u16 c.BNEP_PSM)],
                        .seq [.uuid16 c.BNEP_UUID, .uint16 0x0100,
                              .seq16 [.uint16 0x0800, .uint16 0x0806]]]]) := by
  simp [sdp_data_get, create_server_record_attrlist]

/-! ## The listener -/

/-- C3: in a run of `l2cap_listen` in which a step fails with a positive error
code: when the step comes after socket creation (bind, read options, write
options, set link mode, listen) the calls made are those up to the failing
step followed by one `close` of the created socket and nothing else, `errno`
holds the failing step's error code, the result is its negation, the server
(its `io` included) is unchanged and no watch is registered; when socket
creation fails the result is the negated error code, nothing but `socket` was
called, and the server is unchanged. -/
theorem l2cap_listen_failure (c : Consts) (sys : Sys) (ns : network_server) :
    (sys.socket.ret < 0 → 0 < sys.socket.errno →
      (l2cap_listen c sys ns).ret = -sys.socket.errno ∧
      (l2cap_listen c sys ns).ret < 0 ∧
      (l2cap_listen c sys ns).errno = sys.socket.errno ∧
      (l2cap_listen c sys ns).ns = ns ∧
      (l2cap_listen c sys ns).trace = [.socket]) ∧
    (0 ≤ sys.socket.ret → sys.bind.ret ≠ 0 → 0 < sys.bind.errno →
      (l2cap_listen c sys ns).trace =
        [.socket, .bind sys.socket.ret .BDADDR_ANY (c.htobs c.BNEP_PSM),
         .close sys.socket.ret] ∧
      closes (l2cap_listen c sys ns).trace = [sys.socket.ret] ∧
      watches (l2cap_listen c sys ns).trace = [] ∧
      (l2cap_listen c sys ns).errno = sys.bind.errno ∧
      (l2cap_listen c sys ns).ret = -sys.bind.errno ∧
      (l2cap_listen c sys ns).ret < 0 ∧
      (l2cap_listen c sys ns).ns = ns) ∧
    (0 ≤ sys.socket.ret → sys.bind.ret = 0 → sys.getsockopt.ret < 0 →
      0 < sys.getsockopt.errno →
      (l2cap_listen c sys ns).trace =
        [.socket, .bind sys.socket.ret .BDADDR_ANY (c.htobs c.BNEP_PSM),
         .getsockopt_L2CAP_OPTIONS sys.socket.ret, .close sys.socket.ret] ∧
      closes (l2cap_listen c sys ns).trace = [sys.socket.ret] ∧
      watches (l2cap_listen c sys ns).trace = [] ∧
      (l2cap_listen c sys ns).errno = sys.getsockopt.errno ∧
      (l2cap_listen c sys ns).ret = -sys.getsockopt.errno ∧
      (l2cap_listen c sys ns).ret < 0 ∧
      (l2cap_listen c sys ns).ns = ns) ∧
    (0 ≤ sys.socket.ret → sys.bind.ret = 0 → 0 ≤ sys.getsockopt.ret →
      sys.setsockopt_options.ret < 0 → 0 < sys.setsockopt_options.errno →
      (l2cap_listen c sys ns).trace = calls_to_options c sys ++ [.close sys.socket.ret] ∧
      closes (l2cap_listen c sys ns).trace = [sys.socket.ret] ∧
      watches (l2cap_listen c sys ns).trace = [] ∧
      (l2cap_listen c sys ns).errno = sys.setsockopt_options.errno ∧
      (l2cap_listen c sys ns).ret = -sys.setsockopt_options.errno ∧
      (l2cap_listen c sys ns).ret < 0 ∧
      (l2cap_listen c sys ns).ns = ns) ∧
    (0 ≤ sys.socket.ret → sys.bind.ret = 0 → 0 ≤ sys.getsockopt.ret →
      0 ≤ sys.setsockopt_options.ret →
      ns.secure = true → c.L2CAP_LM_SECURE ≠ 0 →
      sys.setsockopt_lm.ret < 0 → 0 < sys.setsockopt_lm.errno →
      (l2cap_listen c sys ns).trace =
        calls_to_options c sys ++
          [.setsockopt_L2CAP_LM sys.socket.ret c.L2CAP_LM_SECURE, .close sys.socket.ret] ∧
      closes (l2cap_listen c sys ns).trace = [sys.socket.ret] ∧
      watches (l2cap_listen c sys ns).trace = [] ∧
      (l2cap_listen c sys ns).errno = sys.setsockopt_lm.errno ∧
      (l2cap_listen c sys ns).ret = -sys.setsockopt_lm.errno ∧
      (l2cap_listen c sys ns).ret < 0 ∧
      (l2cap_listen c sys ns).ns = ns) ∧
    (0 ≤ sys.socket.ret → sys.bind.ret = 0 → 0 ≤ sys.getsockopt.ret →
      0 ≤ sys.setsockopt_options.ret →
      (ns.secure = true → c.L2CAP_LM_SECURE ≠ 0 → 0 ≤ sys.setsockopt_lm.ret) →
      sys.listen.ret < 0 → 0 < sys.listen.errno →
      (l2cap_listen c sys ns).trace =
        calls_to_options c sys ++
          (if ns.secure = true ∧ c.L2CAP_LM_SECURE ≠ 0 then
            [.setsockopt_L2CAP_LM sys.socket.ret c.L2CAP_LM_SECURE] else []) ++
          [.listen sys.socket.ret 10, .close sys.socket.ret] ∧
      closes (l2cap_listen c sys ns).trace = [sys.socket.ret] ∧
      watches (l2cap_listen c sys ns).trace = [] ∧
      (l2cap_listen c sys ns).errno = sys.listen.errno ∧
      (l2cap_listen c sys ns).ret = -sys.listen.errno ∧
      (l2cap_listen c sys ns).ret < 0 ∧
      (l2cap_listen c sys ns).ns = ns) := by
  refine ⟨?_, ?_, ?_, ?_, ?_, ?_⟩
  · intro h1 h2
    simp [l2cap_listen, h1, h2]
  · intro h1 h2 h3
    have h1' : ¬ sys.socket.ret < 0 := not_lt.mpr h1
    simp [l2cap_listen, l2cap_listen_fail, calls_to_options, closes, watches, h1', h2, h3]
  · intro h1 h2 h3 h4
    have h1' : ¬ sys.socket.ret < 0 := not_lt.mpr h1
    simp [l2cap_listen, l2cap_listen_fail, calls_to_options, closes, watches, h1', h2, h3, h4]
  · intro h1 h2 h3 h4 h5
    have h1' : ¬ sys.socket.ret < 0 := not_lt.mpr h1
    have h3' : ¬ sys.getsockopt.ret < 0 := not_lt.mpr h3
    simp [l2cap_listen, l2cap_listen_fail, calls_to_options, closes, watches, h1', h2, h3', h4,
      h5]
  · intro h1 h2 h3 h4 hs hlm h5 h6
    have h1' : ¬ sys.socket.ret < 0 := not_lt.mpr h1
    have h3' : ¬ sys.getsockopt.ret < 0 := not_lt.mpr h3
    have h4' : ¬ sys.setsockopt_options.ret < 0 := not_lt.mpr h4
    simp [l2cap_listen, l2cap_listen_fail, calls_to_options, closes, watches, h1', h2, h3', h4',
      hs, hlm, h5, h6]
  · intro h1 h2 h3 h4 hlm h5 h6
    have h1' : ¬ sys.socket.ret < 0 := not_lt.mpr h1
    have h3' : ¬ sys.getsockopt.ret < 0 := not_lt.mpr h3
    have h4' : ¬ sys.setsockopt_options.ret < 0 := not_lt.mpr h4
    by_cases hs : ns.secure = true
    · by_cases hz : c.L2CAP_LM_SECURE = 0
      · simp [l2cap_listen, l2cap_listen_fail, calls_to_options, closes, watches, h1', h2, h3',
          h4', hs, hz, h5, h6]
      · have h7 : ¬ sys.setsockopt_lm.ret < 0 := not_lt.mpr (hlm hs hz)
        simp [l2cap_listen, l2cap_listen_fail, calls_to_options, closes, watches, h1', h2, h3',
          h4', hs, hz, h5, h6, h7]
    · simp [l2cap_listen, l2cap_listen_fail, calls_to_options, closes, watches, h1', h2, h3',
        h4', hs, h5, h6]

/-- The run of C3 on a fresh server when the write of the channel options
fails with error 22: socket 5 is closed once, nothing follows, the result
is -22. -/
theorem l2cap_listen_failure_witness :
    (l2cap_listen bluez sys_setopt_fails ns_new).trace =
      [.socket, .bind 5 .BDADDR_ANY 15, .getsockopt_L2CAP_OPTIONS 5,
       .setsockopt_L2CAP_OPTIONS 5 { omtu := 1691, imtu := 1691, others := [65535, 0] },
       .close 5] ∧
    closes (l2cap_listen bluez sys_setopt_fails ns_new).trace = [5] ∧
    watches (l2cap_listen bluez sys_setopt_fails ns_new).trace = [] ∧
    (l2cap_listen bluez sys_setopt_fails ns_new).errno = 22 ∧
    (l2cap_listen bluez sys_setopt_fails ns_new).ret = -22 ∧
    (l2cap_listen bluez sys_setopt_fails ns_new).ret < 0 ∧
    (l2cap_listen bluez sys_setopt_fails ns_new).ns = ns_new :=
  (l2cap_listen_failure bluez sys_setopt_fails ns_new).2.2.2.1
    (by decide) (by decide) (by decide) (by decide) (by decide)

/-- C4: in every run of `l2cap_listen` that returns 0 (the system keeping the
convention of `errno`), the calls are, in this order: `socket`; `bind` of the
socket to the wildcard address and `BNEP_PSM`; the read of the channel
options; the write of the options read, both MTUs replaced by `BNEP_MTU` and
the other fields as read; the link-mode write when one is made; `listen` with
backlog 10; then the channel and its watch. -/
theorem l2cap_listen_success (c : Consts) (sys : Sys) (ns : network_server)
    (hposix : sys.posix) (h : (l2cap_listen c sys ns).ret = 0) :
    (l2cap_listen c sys ns).trace =
      [.socket,
       .bind sys.socket.ret .BDADDR_ANY (c.htobs c.BNEP_PSM),
       .getsockopt_L2CAP_OPTIONS sys.socket.ret,
       .setsockopt_L2CAP_OPTIONS sys.socket.ret
          { omtu := u16 c.BNEP_MTU, imtu := u16 c.BNEP_MTU, others := sys.l2o.others }] ++
      (if ns.secure = true ∧ c.L2CAP_LM_SECURE ≠ 0 then
        [.setsockopt_L2CAP_LM sys.socket.ret c.L2CAP_LM_SECURE] else []) ++
      [.listen sys.socket.ret 10,
       .g_io_channel_unix_new sys.socket.ret,
       .g_io_channel_set_close_on_unref sys.socket.ret true,
       .g_io_add_watch sys.socket.ret] ∧
    (l2cap_listen c sys ns).ns = { ns with io := some sys.socket.ret } := by
  obtain ⟨p1, p2, p3, p4, p5, p6⟩ := hposix
  by_cases h1 : sys.socket.ret < 0
  · have := p1 h1
    simp [l2cap_listen, h1] at h
    omega
  by_cases h2 : sys.bind.ret = 0
  swap
  · have := p2 h2
    simp [l2cap_listen, l2cap_listen_fail, h1, h2] at h
    omega
  by_cases h3 : sys.getsockopt.ret < 0
  · have := p3 h3
    simp [l2cap_listen, l2cap_listen_fail, h1, h2, h3] at h
    omega
  by_cases h4 : sys.setsockopt_options.ret < 0
  · have := p4 h4
    simp [l2cap_listen, l2cap_listen_fail, h1, h2, h3, h4] at h
    omega
  by_cases hs : ns.secure = true
  · by_cases hz : c.L2CAP_LM_SECURE = 0
    · by_cases h6 : sys.listen.ret < 0
      · have := p6 h6
        simp [l2cap_listen, l2cap_listen_fail, h1, h2, h3, h4, hs, hz, h6] at h
        omega
      · simp [l2cap_listen, h1, h2, h3, h4, h6, hs, hz]
    · by_cases h5 : sys.setsockopt_lm.ret < 0
      · have := p5 h5
        simp [l2cap_listen, l2cap_listen_fail, h1, h2, h3, h4, hs, hz, h5] at h
        omega
      · by_cases h6 : sys.listen.ret < 0
        · have := p6 h6
          simp [l2cap_listen, l2cap_listen_fail, h1, h2, h3, h4, hs, hz, h5, h6] at h
          omega
        · simp [l2cap_listen, h1, h2, h3, h4, h6, hs, hz, h5]
  · by_cases h6 : sys.listen.ret < 0
    · have := p6 h6
      simp [l2cap_listen, l2cap_listen_fail, h1, h2, h3, h4, hs, h6] at h
      omega
    · simp [l2cap_listen, h1, h2, h3, h4, h6, hs]

/-- The run of C4 on a fresh server when every call succeeds. -/
theorem l2cap_listen_success_witness :
    sys_ok.posix ∧ (l2cap_listen bluez sys_ok ns_new).ret = 0 ∧
    (l2cap_listen bluez sys_ok ns_new).trace =
      [.socket, .bind 5 .BDADDR_ANY 15, .getsockopt_L2CAP_OPTIONS 5,
       .setsockopt_L2CAP_OPTIONS 5 { omtu := 1691, imtu := 1691, others := [65535, 0] },
       .listen 5 10, .g_io_channel_unix_new 5, .g_io_channel_set_close_on_unref 5 true,
       .g_io_add_watch 5] ∧
    (l2cap_listen bluez sys_ok ns_new).ns = { ns_new with io := some 5 } :=
  ⟨by decide, by decide, l2cap_listen_success bluez sys_ok ns_new (by decide) (by decide)⟩

/-- C9: in every run of `l2cap_listen` that reaches the link-mode step (the
socket is created and bound and its options are read and written), with
`L2CAP_LM_SECURE` a non-zero mode: when the server's security flag is set
exactly one link mode is written and it is `L2CAP_LM_SECURE`; when it is not
set no link mode is written and the call after the write of the options is
`listen`. The flag is the one the last `SetSecurity` stored: after
`set_security` has accepted a boolean `b`, the flag is `b` and the run writes
the secure link mode exactly when `b` is true. -/
theorem l2cap_listen_link_mode (c : Consts) (sys : Sys) (ns : network_server) (b : Bool)
    (rest : DBusMessage)
    (hlm : c.L2CAP_LM_SECURE ≠ 0)
    (h1 : 0 ≤ sys.socket.ret) (h2 : sys.bind.ret = 0) (h3 : 0 ≤ sys.getsockopt.ret)
    (h4 : 0 ≤ sys.setsockopt_options.ret) :
    (ns.secure = true → lm_writes (l2cap_listen c sys ns).trace = [c.L2CAP_LM_SECURE]) ∧
    (ns.secure = false →
      lm_writes (l2cap_listen c sys ns).trace = [] ∧
      (l2cap_listen c sys ns).trace.take 5 =
        calls_to_options c sys ++ [.listen sys.socket.ret 10]) ∧
    (set_security ns true (.boolean b :: rest)).ns.secure = b ∧
    lm_writes (l2cap_listen c sys (set_security ns true (.boolean b :: rest)).ns).trace =
      (if b = true then [c.L2CAP_LM_SECURE] else []) := by
  have h1' : ¬ sys.socket.ret < 0 := not_lt.mpr h1
  have h3' : ¬ sys.getsockopt.ret < 0 := not_lt.mpr h3
  have h4' : ¬ sys.setsockopt_options.ret < 0 := not_lt.mpr h4
  have main : ∀ n : network_server,
      (n.secure = true → lm_writes (l2cap_listen c sys n).trace = [c.L2CAP_LM_SECURE]) ∧
      (n.secure = false →
        lm_writes (l2cap_listen c sys n).trace = [] ∧
        (l2cap_listen c sys n).trace.take 5 =
          calls_to_options c sys ++ [.listen sys.socket.ret 10]) := by
    intro n
    constructor
    · intro hs
      by_cases h5 : sys.setsockopt_lm.ret < 0
      · simp [l2cap_listen, l2cap_listen_fail, lm_writes, h1', h2, h3', h4', hs, hlm, h5]
      · by_cases h6 : sys.listen.ret < 0 <;>
          simp [l2cap_listen, l2cap_listen_fail, lm_writes, h1', h2, h3', h4', hs, hlm, h5, h6]
    · intro hs
      by_cases h6 : sys.listen.ret < 0 <;>
        simp [l2cap_listen, l2cap_listen_fail, lm_writes, calls_to_options, h1', h2, h3', h4',
          hs, h6]
  refine ⟨(main ns).1, (main ns).2, ?_, ?_⟩
  · simp [set_security, dbus_message_get_args_boolean]
  · have hb : (set_security ns true (.boolean b :: rest)).ns.secure = b := by
      simp [set_security, dbus_message_get_args_boolean]
    cases b
    · simpa using ((main _).2 hb).1
    · simpa using (main _).1 hb

/-- The run of C9 on a fresh server, all calls succeeding, after
`SetSecurity(true)`. -/
theorem l2cap_listen_link_mode_witness :
    lm_writes (l2cap_listen bluez sys_ok
      (set_security ns_new true [.boolean true]).ns).trace = [0x0020] ∧
    lm_writes (l2cap_listen bluez sys_ok ns_new).trace = [] :=
  ⟨(l2cap_listen_link_mode bluez sys_ok ns_new true []
      (by decide) (by decide) (by decide) (by decide) (by decide)).2.2.2,
   ((l2cap_listen_link_mode bluez sys_ok ns_new true []
      (by decide) (by decide) (by decide) (by decide) (by decide)).2.1 rfl).1⟩

/-! ## Enable -/

theorem string_length_eq_zero (n : String) : n.length = 0 ↔ n = "" := by
  constructor
  · intro h
    cases n with
    | mk data =>
      have hd : data = [] := List.length_eq_zero.mp h
      subst hd
      rfl
  · intro h
    subst h
    rfl

theorem l2cap_listen_trace_head (c : Consts) (sys : Sys) (ns : network_server) :
    ∃ rest, (l2cap_listen c sys ns).trace = .socket :: rest := by
  unfold l2cap_listen l2cap_listen_fail
  simp only []
  split_ifs <;> simp

theorem l2cap_listen_publish_events (c : Consts) (sys : Sys) (ns : network_server) :
    publish_events (l2cap_listen c sys ns).trace = [] := by
  unfold l2cap_listen l2cap_listen_fail publish_events
  simp only []
  split_ifs <;> simp [List.filter]

theorem l2cap_listen_ns_of_neg (c : Consts) (sys : Sys) (ns : network_server)
    (h : (l2cap_listen c sys ns).ret < 0) : (l2cap_listen c sys ns).ns = ns := by
  revert h
  unfold l2cap_listen l2cap_listen_fail
  simp only []
  split_ifs <;> simp

theorem add_server_record_trace (c : Consts) (d : DBus) (id : Nat) :
    (add_server_record c d id).trace = [] ∨
    (add_server_record c d id).trace =
      [.sdp_gen_record_pdu (create_server_record c d.gen id).record] ∨
    (add_server_record c d id).trace =
      [.sdp_gen_record_pdu (create_server_record c d.gen id).record,
       .AddServiceRecord ((create_server_record c d.gen id).buf.getD [])] := by
  unfold add_server_record
  simp only []
  split_ifs
  · simp
  · simp
  · split
    · simp
    · simp
    · split <;> simp

theorem add_server_record_trace_of_ne_zero (c : Consts) (d : DBus) (id : Nat)
    (h : (add_server_record c d id).rec_id ≠ 0) :
    (add_server_record c d id).trace =
      [.sdp_gen_record_pdu (create_server_record c d.gen id).record,
       .AddServiceRecord ((create_server_record c d.gen id).buf.getD [])] := by
  revert h
  unfold add_server_record
  simp only []
  split_ifs
  · simp
  · simp
  · split
    · simp
    · simp
    · split <;> simp

theorem add_server_record_socket_not_mem (c : Consts) (d : DBus) (id : Nat) :
    Event.socket ∉ (add_server_record c d id).trace := by
  rcases add_server_record_trace c d id with h | h | h <;> simp [h]

/-- Every way `add_server_record` fails gives the handle zero: no message for
the method call, the record not serialized, the call answered by an error,
the reply malformed. -/
theorem add_server_record_eq_zero (c : Consts) (d : DBus) (id : Nat)
    (h : d.msg = false ∨
      d.gen (create_server_record c d.gen id).record = none ∨
      d.send ((create_server_record c d.gen id).buf.getD []) = .derr ∨
      d.send ((create_server_record c d.gen id).buf.getD []) = .error_reply ∨
      (∃ args, d.send ((create_server_record c d.gen id).buf.getD []) = .method_return args ∧
        dbus_message_get_args_uint32 args = none)) :
    (add_server_record c d id).rec_id = 0 := by
  have hret : (create_server_record c d.gen id).ret =
      if (d.gen (create_server_record c d.gen id).record).isNone then -1 else 0 := rfl
  unfold add_server_record
  simp only []
  split_ifs with h1 h2
  · rfl
  · rfl
  · have hg : d.gen (create_server_record c d.gen id).record ≠ none := by
      intro hg
      rw [hret, hg] at h2
      simp at h2
    rcases h with h | h | h | h | ⟨args, h, ha⟩
    · exact absurd h h1
    · exact absurd h hg
    · simp [h]
    · simp [h]
    · simp [h, ha]

/-- C5: in every run of `enable`, a socket is created only after
`add_server_record` has returned a non-zero handle, the record having been
built and submitted to the directory before; and when the publication fails
(no method call, the record not built, an error reported, a malformed reply,
or the handle zero), `enable` reports the failure through `err_failed` and
makes no call of the listener: no socket is created. -/
theorem enable_publish_before_listen (c : Consts) (d : DBus) (sys : Sys)
    (ns : network_server) (reply : Bool) :
    (Event.socket ∈ (enable c d sys ns reply).trace →
      (add_server_record c d ns.id).rec_id ≠ 0 ∧
      ∃ rest, (enable c d sys ns reply).trace =
        [.sdp_gen_record_pdu (create_server_record c d.gen ns.id).record,
         .AddServiceRecord ((create_server_record c d.gen ns.id).buf.getD []),
         .socket] ++ rest) ∧
    (reply = true →
      (d.msg = false ∨
       d.gen (create_server_record c d.gen ns.id).record = none ∨
       d.send ((create_server_record c d.gen ns.id).buf.getD []) = .derr ∨
       d.send ((create_server_record c d.gen ns.id).buf.getD []) = .error_reply ∨
       (∃ args,
          d.send ((create_server_record c d.gen ns.id).buf.getD []) = .method_return args ∧
          dbus_message_get_args_uint32 args = none) ∨
       (add_server_record c d ns.id).rec_id = 0) →
      (enable c d sys ns reply).ret = .of_err_failed ∧
      (enable c d sys ns reply).trace =
        (add_server_record c d ns.id).trace ++
          [.err_failed (.lit "Unable to register the service record")] ∧
      Event.socket ∉ (enable c d sys ns reply).trace) := by
  constructor
  · intro hmem
    by_cases hr : reply = false
    · simp [enable, hr] at hmem
    by_cases h0 : (add_server_record c d ns.id).rec_id = 0
    · have hn := add_server_record_socket_not_mem c d ns.id
      simp [enable, hr, h0] at hmem
      exact absurd hmem hn
    refine ⟨h0, ?_⟩
    obtain ⟨rest, hrest⟩ := l2cap_listen_trace_head c sys
      { ns with record_id := (add_server_record c d ns.id).rec_id }
    have ht := add_server_record_trace_of_ne_zero c d ns.id h0
    by_cases hl : (l2cap_listen c sys
        { ns with record_id := (add_server_record c d ns.id).rec_id }).ret < 0
    · exact ⟨rest ++ [.err_failed (.strerror (-(l2cap_listen c sys
        { ns with record_id := (add_server_record c d ns.id).rec_id }).ret))], by
        simp [enable, hr, h0, hl, hrest, ht]⟩
    · exact ⟨rest ++ [.send_message_and_unref []], by
        simp [enable, hr, h0, hl, hrest, ht]⟩
  · intro hr hcause
    have h0 : (add_server_record c d ns.id).rec_id = 0 := by
      rcases hcause with h | h | h | h | h | h
      · exact add_server_record_eq_zero c d ns.id (Or.inl h)
      · exact add_server_record_eq_zero c d ns.id (Or.inr (Or.inl h))
      · exact add_server_record_eq_zero c d ns.id (Or.inr (Or.inr (Or.inl h)))
      · exact add_server_record_eq_zero c d ns.id (Or.inr (Or.inr (Or.inr (Or.inl h))))
      · exact add_server_record_eq_zero c d ns.id (Or.inr (Or.inr (Or.inr (Or.inr h))))
      · exact h
    have hn := add_server_record_socket_not_mem c d ns.id
    simp [enable, hr, h0, hn]

/-- The run of C5 on a fresh server when the directory answers with an error:
the record is built and sent, the failure is reported, no socket is made. -/
theorem enable_publish_before_listen_witness :
    (enable bluez dbus_error sys_ok ns_new true).ret = .of_err_failed ∧
    (enable bluez dbus_error sys_ok ns_new true).trace =
      (add_server_record bluez dbus_error ns_new.id).trace ++
        [.err_failed (.lit "Unable to register the service record")] ∧
    Event.socket ∉ (enable bluez dbus_error sys_ok ns_new true).trace :=
  (enable_publish_before_listen bluez dbus_error sys_ok ns_new true).2 rfl
    (Or.inr (Or.inr (Or.inr (Or.inl rfl))))

/-- C6, against the claim as written: on a fresh server (record handle 0) the
directory hands out the handle 0x10007 and `socket` then fails; `enable`
reports the failure and the stored record handle is 0x10007, not 0. -/
theorem enable_failure_changes_record_id :
    (enable bluez dbus_ok sys_socket_fails ns_new true).ret = .of_err_failed ∧
    ns_new.record_id = 0 ∧
    (enable bluez dbus_ok sys_socket_fails ns_new true).ns.record_id = 0x10007 ∧
    (enable bluez dbus_ok sys_socket_fails ns_new true).ns ≠ ns_new := by
  decide

/-- C6, amended: in every run of `enable` that reports a failure, the
listening channel, the name, the routing interface, the path, the security
flag and the service id are as before the call, and the record handle is
the value `add_server_record` returned in that run: zero when the
publication failed, the handle just obtained when the listener failed. -/
theorem enable_failure_state (c : Consts) (d : DBus) (sys : Sys) (ns : network_server)
    (reply : Bool) (h : (enable c d sys ns reply).ret = .of_err_failed) :
    (enable c d sys ns reply).ns =
      { ns with record_id := (add_server_record c d ns.id).rec_id } ∧
    ((add_server_record c d ns.id).rec_id = 0 ∨
      ((add_server_record c d ns.id).rec_id ≠ 0 ∧
        (l2cap_listen c sys
          { ns with record_id := (add_server_record c d ns.id).rec_id }).ret < 0)) := by
  by_cases hr : reply = false
  · simp [enable, hr] at h
  by_cases h0 : (add_server_record c d ns.id).rec_id = 0
  · simp [enable, hr, h0]
  by_cases hl : (l2cap_listen c sys
      { ns with record_id := (add_server_record c d ns.id).rec_id }).ret < 0
  · have := l2cap_listen_ns_of_neg c sys _ hl
    simp [enable, hr, h0, hl, this]
  · simp [enable, hr, h0, hl] at h

/-- The run of C6 on a fresh server when `socket` fails after the directory
gave the handle 0x10007. -/
theorem enable_failure_state_witness :
    (enable bluez dbus_ok sys_socket_fails ns_new true).ret = .of_err_failed ∧
    (enable bluez dbus_ok sys_socket_fails ns_new true).ns =
      { ns_new with record_id := 0x10007 } :=
  ⟨by decide, (enable_failure_state bluez dbus_ok sys_socket_fails ns_new true (by decide)).1⟩

/-- The calls of `add_server_record`, in full: none without a message for the
method call; else the serializer call on the record of `create_server_record`,
followed, when the record was serialized, by the directory call carrying the
bytes. -/
theorem add_server_record_trace_eq (c : Consts) (d : DBus) (id : Nat) :
    (add_server_record c d id).trace =
      if d.msg = true then
        .sdp_gen_record_pdu (create_server_record c d.gen id).record ::
          (match d.gen (create_server_record c d.gen id).record with
            | some b => [.AddServiceRecord b]
            | none => [])
      else [] := by
  have hbuf : (create_server_record c d.gen id).buf =
      d.gen (create_server_record c d.gen id).record := rfl
  have hret : (create_server_record c d.gen id).ret =
      if (d.gen (create_server_record c d.gen id).record).isNone then -1 else 0 := rfl
  by_cases hm : d.msg = true
  · cases hg : d.gen (create_server_record c d.gen id).record with
    | none =>
      have hneg : (create_server_record c d.gen id).ret < 0 := by
        rw [hret, hg]
        decide
      simp [add_server_record, hm, hneg]
    | some b =>
      have hneg : ¬ (create_server_record c d.gen id).ret < 0 := by
        rw [hret, hg]
        simp
      have hdata : (create_server_record c d.gen id).buf.getD [] = b := by
        rw [hbuf, hg]
        rfl
      unfold add_server_record
      simp only [hm, hneg, hdata]
      simp only [Bool.true_eq_false, if_false, if_true]
      split
      · rfl
      · rfl
      · split <;> rfl
  · simp [add_server_record, hm]

/-- C10: two servers with the same service id that differ only in the
security flag make `enable` build and submit the same record: once the reply
message and the method call are allocated, either run hands the record of
`create_server_record` for the id to the serializer and, when it is
serialized, submits the bytes to the directory, and these are all the
building and submitting calls of either run; that record has the security
descriptor `uint16 0`, and so has any record `enable` hands to the
serializer. -/
theorem enable_record_ignores_secure (c : Consts) (d : DBus) (sys : Sys)
    (ns1 ns2 : network_server) (reply : Bool)
    (h : ns2 = { ns1 with secure := ns2.secure }) :
    publish_events (enable c d sys ns1 reply).trace =
      publish_events (enable c d sys ns2 reply).trace ∧
    (∀ r, Event.sdp_gen_record_pdu r ∈ (enable c d sys ns1 reply).trace ∨
        Event.sdp_gen_record_pdu r ∈ (enable c d sys ns2 reply).trace →
      r = (create_server_record c d.gen ns1.id).record ∧
      sdp_data_get r .SDP_ATTR_SECURITY_DESC = some (.uint16 0)) ∧
    sdp_data_get (create_server_record c d.gen ns1.id).record .SDP_ATTR_SECURITY_DESC =
      some (.uint16 0) ∧
    publish_events (enable c d sys ns1 reply).trace =
      (if reply = true ∧ d.msg = true then
        .sdp_gen_record_pdu (create_server_record c d.gen ns1.id).record ::
          (match d.gen (create_server_record c d.gen ns1.id).record with
            | some b => [.AddServiceRecord b]
            | none => [])
      else []) ∧
    publish_events (enable c d sys ns2 reply).trace =
      (if reply = true ∧ d.msg = true then
        .sdp_gen_record_pdu (create_server_record c d.gen ns1.id).record ::
          (match d.gen (create_server_record c d.gen ns1.id).record with
            | some b => [.AddServiceRecord b]
            | none => [])
      else []) ∧
    (reply = true → d.msg = true →
      Event.sdp_gen_record_pdu (create_server_record c d.gen ns1.id).record ∈
        (enable c d sys ns1 reply).trace ∧
      Event.sdp_gen_record_pdu (create_server_record c d.gen ns1.id).record ∈
        (enable c d sys ns2 reply).trace ∧
      ∀ b, d.gen (create_server_record c d.gen ns1.id).record = some b →
        Event.AddServiceRecord b ∈ (enable c d sys ns1 reply).trace ∧
        Event.AddServiceRecord b ∈ (enable c d sys ns2 reply).trace) := by
  have hid : ns2.id = ns1.id := by rw [h]
  have hsec : sdp_data_get (create_server_record c d.gen ns1.id).record
      .SDP_ATTR_SECURITY_DESC = some (.uint16 0) := by
    simp [sdp_data_get, create_server_record_attrlist]
  have hpub : ∀ ns : network_server, publish_events (enable c d sys ns reply).trace =
      if reply = false then [] else (add_server_record c d ns.id).trace := by
    intro ns
    by_cases hr : reply = false
    · simp [enable, hr, publish_events]
    have hp : publish_events (add_server_record c d ns.id).trace =
        (add_server_record c d ns.id).trace := by
      rcases add_server_record_trace c d ns.id with h | h | h <;>
        simp [h, publish_events]
    have hl := l2cap_listen_publish_events c sys
      { ns with record_id := (add_server_record c d ns.id).rec_id }
    unfold publish_events at hp hl
    by_cases h0 : (add_server_record c d ns.id).rec_id = 0
    · simp [enable, hr, h0, publish_events, hp]
    · by_cases hlr : (l2cap_listen c sys
          { ns with record_id := (add_server_record c d ns.id).rec_id }).ret < 0
      · simp [enable, hr, h0, hlr, publish_events, hp, hl]
      · simp [enable, hr, h0, hlr, publish_events, hp, hl]
  have hmem : ∀ (ns : network_server) (r : sdp_record),
      Event.sdp_gen_record_pdu r ∈ (enable c d sys ns reply).trace →
      r = (create_server_record c d.gen ns.id).record := by
    intro ns r hr
    have h1 : Event.sdp_gen_record_pdu r ∈ publish_events (enable c d sys ns reply).trace := by
      unfold publish_events
      exact List.mem_filter.mpr ⟨hr, rfl⟩
    rw [hpub ns] at h1
    by_cases hrep : reply = false
    · simp [hrep] at h1
    · rcases add_server_record_trace c d ns.id with h | h | h <;>
        simp [hrep, h] at h1 <;> exact h1
  have hexact : ∀ ns : network_server, ns.id = ns1.id →
      publish_events (enable c d sys ns reply).trace =
        (if reply = true ∧ d.msg = true then
          .sdp_gen_record_pdu (create_server_record c d.gen ns1.id).record ::
            (match d.gen (create_server_record c d.gen ns1.id).record with
              | some b => [.AddServiceRecord b]
              | none => [])
        else []) := by
    intro ns hns
    rw [hpub ns, add_server_record_trace_eq, hns]
    cases reply <;> cases hm : d.msg <;> simp
  have hsub : ∀ (ns : network_server) (e : Event),
      e ∈ publish_events (enable c d sys ns reply).trace →
      e ∈ (enable c d sys ns reply).trace := by
    intro ns e he
    unfold publish_events at he
    exact (List.mem_filter.mp he).1
  refine ⟨?_, ?_, hsec, hexact ns1 rfl, hexact ns2 hid, ?_⟩
  · rw [hpub ns1, hpub ns2, hid]
  · intro r hr
    have hr' : r = (create_server_record c d.gen ns1.id).record := by
      rcases hr with hr | hr
      · exact hmem ns1 r hr
      · have := hmem ns2 r hr
        rw [hid] at this
        exact this
    exact ⟨hr', hr' ▸ hsec⟩
  · intro hr hm
    subst hr
    have e1 := hexact ns1 rfl
    have e2 := hexact ns2 hid
    simp only [hm, and_self, if_true] at e1 e2
    refine ⟨hsub ns1 _ (by rw [e1]; exact List.mem_cons_self _ _),
      hsub ns2 _ (by rw [e2]; exact List.mem_cons_self _ _), ?_⟩
    intro b hb
    rw [hb] at e1 e2
    exact ⟨hsub ns1 _ (by rw [e1]; simp), hsub ns2 _ (by rw [e2]; simp)⟩

/-- The run of C10 on a fresh server and on the same server with the flag
set, every call succeeding: either run hands the Group-Network record to the
serializer and submits its bytes, and the record's security descriptor is
`uint16 0`. -/
theorem enable_record_ignores_secure_witness :
    sdp_data_get (create_server_record bluez dbus_ok.gen 0x1117).record
      .SDP_ATTR_SECURITY_DESC = some (.uint16 0) ∧
    publish_events (enable bluez dbus_ok sys_ok ns_new true).trace =
      [.sdp_gen_record_pdu (create_server_record bluez dbus_ok.gen 0x1117).record,
       .AddServiceRecord [9]] ∧
    publish_events (enable bluez dbus_ok sys_ok { ns_new with secure := true } true).trace =
      [.sdp_gen_record_pdu (create_server_record bluez dbus_ok.gen 0x1117).record,
       .AddServiceRecord [9]] ∧
    Event.sdp_gen_record_pdu (create_server_record bluez dbus_ok.gen 0x1117).record ∈
      (enable bluez dbus_ok sys_ok ns_new true).trace ∧
    Event.sdp_gen_record_pdu (create_server_record bluez dbus_ok.gen 0x1117).record ∈
      (enable bluez dbus_ok sys_ok { ns_new with secure := true } true).trace ∧
    Event.AddServiceRecord [9] ∈ (enable bluez dbus_ok sys_ok ns_new true).trace ∧
    Event.AddServiceRecord [9] ∈
      (enable bluez dbus_ok sys_ok { ns_new with secure := true } true).trace :=
  have t := enable_record_ignores_secure bluez dbus_ok sys_ok ns_new
    { ns_new with secure := true } true rfl
  ⟨t.2.2.1, t.2.2.2.1, t.2.2.2.2.1, (t.2.2.2.2.2 rfl rfl).1, (t.2.2.2.2.2 rfl rfl).2.1,
   ((t.2.2.2.2.2 rfl rfl).2.2 [9] rfl).1, ((t.2.2.2.2.2 rfl rfl).2.2 [9] rfl).2⟩

/-! ## The setters -/

/-- C7, against the claim as written: when `dbus_message_new_method_return`
gives no reply message, `SetName("")` returns `DBUS_HANDLER_RESULT_NEED_MEMORY`
and reports nothing, no invalid-arguments failure either. -/
theorem set_name_empty_without_reply :
    (set_name ns_new false [.string ""]).ret = .DBUS_HANDLER_RESULT_NEED_MEMORY ∧
    (set_name ns_new false [.string ""]).trace = [] ∧
    ¬ ∃ text, Event.err_invalid_args text ∈ (set_name ns_new false [.string ""]).trace := by
  refine ⟨by decide, by decide, ?_⟩
  rintro ⟨text, h⟩
  simp [set_name] at h

/-- C7, amended: `SetName` and `SetRouting` given an empty string, and
`SetName`, `SetRouting` and `SetSecurity` given an argument of the wrong
type, leave every field of the server unchanged, and report an
invalid-arguments failure whenever the reply message could be allocated;
when it could not they return `DBUS_HANDLER_RESULT_NEED_MEMORY` and report
nothing. -/
theorem setters_reject_invalid_arguments (ns : network_server) (reply : Bool)
    (msg : DBusMessage) :
    (dbus_message_get_args_string msg = some "" ∨ dbus_message_get_args_string msg = none →
      (set_name ns reply msg).ns = ns ∧ (set_routing ns reply msg).ns = ns ∧
      (reply = true →
        (∃ text, (set_name ns reply msg).trace = [.err_invalid_args text]) ∧
        (∃ text, (set_routing ns reply msg).trace = [.err_invalid_args text])) ∧
      (reply = false →
        (set_name ns reply msg).ret = .DBUS_HANDLER_RESULT_NEED_MEMORY ∧
        (set_name ns reply msg).trace = [] ∧
        (set_routing ns reply msg).ret = .DBUS_HANDLER_RESULT_NEED_MEMORY ∧
        (set_routing ns reply msg).trace = [])) ∧
    (dbus_message_get_args_boolean msg = none →
      (set_security ns reply msg).ns = ns ∧
      (reply = true → (set_security ns reply msg).trace = [.err_invalid_args .derr_message]) ∧
      (reply = false →
        (set_security ns reply msg).ret = .DBUS_HANDLER_RESULT_NEED_MEMORY ∧
        (set_security ns reply msg).trace = [])) := by
  constructor
  · intro h
    cases reply
    · simp [set_name, set_routing]
    · rcases h with h | h <;> simp [set_name, set_routing, h]
  · intro h
    cases reply <;> simp [set_security, h]

/-- The run of C7 on a fresh server: `SetName("")`, `SetRouting("")` and
`SetSecurity` given a string, the reply message allocated. -/
theorem setters_reject_invalid_arguments_witness :
    ((set_name ns_new true [.string ""]).ns = ns_new ∧
     (set_name ns_new true [.string ""]).trace = [.err_invalid_args (.lit "Invalid name")] ∧
     (set_routing ns_new true [.string ""]).ns = ns_new ∧
     (set_routing ns_new true [.string ""]).trace =
       [.err_invalid_args (.lit "Invalid interface")]) ∧
    (set_security ns_new true [.string "yes"]).ns = ns_new ∧
    (set_security ns_new true [.string "yes"]).trace = [.err_invalid_args .derr_message] :=
  ⟨by decide,
   ((setters_reject_invalid_arguments ns_new true [.string "yes"]).2 rfl).1,
   ((setters_reject_invalid_arguments ns_new true [.string "yes"]).2 rfl).2.1 rfl⟩

/-- C8, against the claim as written: when `dbus_message_new_method_return`
gives no reply message, `SetName("office-pan")` does not succeed: it returns
`DBUS_HANDLER_RESULT_NEED_MEMORY`, the name stays unset, and a following
`GetName` answers the empty string. -/
theorem set_name_without_reply :
    (set_name ns_new false [.string "office-pan"]).ret = .DBUS_HANDLER_RESULT_NEED_MEMORY ∧
    (set_name ns_new false [.string "office-pan"]).ns.name = none ∧
    (get_name (set_name ns_new false [.string "office-pan"]).ns true).trace =
      [.send_message_and_unref [.string ""]] := by
  decide

/-- C8, amended: when the reply messages can be allocated, `SetName(n)` with
`n` non-empty succeeds, changes the name to `n` and no other field, and a
following `GetName` returns exactly `n`, whatever name was stored before; on a
server whose name was never set `GetName` returns the empty string. When the
reply message cannot be allocated, either handler returns
`DBUS_HANDLER_RESULT_NEED_MEMORY`, answers nothing and changes nothing. -/
theorem set_name_get_name (ns : network_server) (n : String) (rest : DBusMessage)
    (hn : n ≠ "") :
    (set_name ns true (.string n :: rest)).ret = .of_send_message_and_unref ∧
    (set_name ns true (.string n :: rest)).trace = [.send_message_and_unref []] ∧
    (set_name ns true (.string n :: rest)).ns = { ns with name := some n } ∧
    (get_name (set_name ns true (.string n :: rest)).ns true).ret =
      .of_send_message_and_unref ∧
    (get_name (set_name ns true (.string n :: rest)).ns true).trace =
      [.send_message_and_unref [.string n]] ∧
    (get_name (set_name ns true (.string n :: rest)).ns true).ns =
      (set_name ns true (.string n :: rest)).ns ∧
    (ns.name = none → (get_name ns true).trace = [.send_message_and_unref [.string ""]]) ∧
    (set_name ns false (.string n :: rest)).ret = .DBUS_HANDLER_RESULT_NEED_MEMORY ∧
    (set_name ns false (.string n :: rest)).trace = [] ∧
    (set_name ns false (.string n :: rest)).ns = ns ∧
    (get_name ns false).ret = .DBUS_HANDLER_RESULT_NEED_MEMORY ∧
    (get_name ns false).trace = [] ∧
    (get_name ns false).ns = ns := by
  have hl : ¬ n.length = 0 := fun h => hn ((string_length_eq_zero n).mp h)
  refine ⟨?_, ?_, ?_, ?_, ?_, ?_, ?_, ?_, ?_, ?_, ?_, ?_, ?_⟩ <;>
    simp [set_name, get_name, dbus_message_get_args_string, hl]
  intro h
  simp [h]

/-- The run of C8 on a server named "lab": `SetName("office-pan")`, then
`GetName`. -/
theorem set_name_get_name_witness :
    (set_name { ns_new with name := some "lab" } true [.string "office-pan"]).ns =
      { ns_new with name := some "office-pan" } ∧
    (get_name (set_name { ns_new with name := some "lab" } true [.string "office-pan"]).ns
      true).trace = [.send_message_and_unref [.string "office-pan"]] :=
  ⟨(set_name_get_name { ns_new with name := some "lab" } "office-pan" [] (by decide)).2.2.1,
   (set_name_get_name { ns_new with name := some "lab" } "office-pan" []
     (by decide)).2.2.2.2.1⟩

end Network
